import Mathlib

/-!
# Verification of the LinkedIn jobs scraper's paginated-feed extraction engine

A shallow embedding of the scraping notebook's core logic: `scrape_jobs`
(empty-result sentinel check, then a bounded loop of scroll-load, field
extraction, and pagination) and `export_to_csv` (record assembly from the
four parallel field lists).  The browser session is modelled as a `Session`
value describing what each driver call would observe; exceptions raised by
the Selenium driver are modelled as a `raised` outcome that carries no data,
matching an uncaught Python exception.
-/

namespace LinkedInScraper

/-- One rendered results page as the driver observes it: the text of the
title-bearing nodes in document order, the `LINK_TEXT`-keyed lookup used to
resolve each title's link (keyed by the title's own text, `none` when the
lookup raises `NoSuchElementException`), and the caption / primary-description
node texts. -/
structure Page where
  titles : List String
  linkFor : String → Option String
  locations : List String
  employers : List String

/-- A whole browser session for one search: whether the "No matching jobs
found." sentinel element is present, how many result pages the feed offers
(the pagination control `li[data-test-pagination-page-btn="n"]` exists exactly
when `n ≤ numPages`), the content of each page, and an optional page index at
which the driver has become unreachable (every driver call on that page raises). -/
structure Session where
  hasNoResultsSentinel : Bool
  numPages : Nat
  pageAt : Nat → Page
  unreachableAt : Option Nat

/-- Uncaught exceptions that can escape `scrape_jobs`. -/
inductive ScrapeError where
  | sessionUnavailable
  | linkLookupFailed
deriving DecidableEq, Repr

/-- The spec's terminal-reason labels for the paths on which the loop ends. -/
inductive TerminalReason where
  | NO_RESULTS
  | CAP_REACHED
  | EXHAUSTED
  | READ_FAILURE
deriving DecidableEq, Repr

/-- The four parallel field lists produced by one extraction pass. -/
structure ExtractBatch where
  titles : List String
  links : List String
  locations : List String
  employers : List String
deriving DecidableEq, Repr

/-- What the Python call to `scrape_jobs` yields: `noResults` models the
implicit `return None` on the sentinel path, `ok` models the returned
four-tuple `(titles, locations, companies, links)`, and `raised` models an
uncaught exception propagating out of the function (no data survives). -/
inductive ScrapeOutcome where
  | noResults
  | ok (titles locations companies links : List String)
  | raised (e : ScrapeError)
deriving DecidableEq, Repr

/-- The outcome of a run together with its observable trace: total scroll
gestures issued, extraction passes begun, the page indices the pagination
lookup was attempted for, the page indices actually clicked, and the
per-page batches that were fully extracted, in visit order. -/
structure RunResult where
  outcome : ScrapeOutcome
  reason : TerminalReason
  scrollGestures : Nat
  extractPasses : Nat
  lookups : List Nat
  clicks : List Nat
  batches : List ExtractBatch
deriving DecidableEq, Repr

/-- The loop bound: `for i in range(1, 5)` performs at most 4 iterations. -/
def MAX_PAGES : Nat := 4

/-- The Scroll Loader's gestures: `for i in range(6):
scroll_from_origin(scroll_origin, 0, 550)` — six fixed `(dx, dy)` gestures,
independent of the page's content. -/
def loadMoreGestures (_pg : Page) : List (Nat × Nat) :=
  (List.range 6).map (fun _ => (0, 550))

/-- Sequence a list of per-title link lookups; `none` anywhere means one
lookup raised, which in the source propagates out of the whole pass. -/
def seqOpt : List (Option String) → Option (List String)
  | [] => some []
  | none :: _ => none
  | some x :: rest =>
    match seqOpt rest with
    | some xs => some (x :: xs)
    | none => none

/-- One extraction pass over the current page: read every title node's text,
then resolve each title's link by `LINK_TEXT` lookup on the title's own text
(a failed lookup raises, uncaught), then read the caption and
primary-description node texts. -/
def extractPass (pg : Page) : Except ScrapeError ExtractBatch :=
  match seqOpt (pg.titles.map pg.linkFor) with
  | some ls => Except.ok ⟨pg.titles, ls, pg.locations, pg.employers⟩
  | none => Except.error ScrapeError.linkLookupFailed

/-- Appending one page's batch onto the session-wide accumulator lists. -/
def appendBatch (a b : ExtractBatch) : ExtractBatch :=
  ⟨a.titles ++ b.titles, a.links ++ b.links,
   a.locations ++ b.locations, a.employers ++ b.employers⟩

/-- The empty accumulator the four `*_list = []` initialisations create. -/
def emptyBatch : ExtractBatch := ⟨[], [], [], []⟩

/-- The body of `for i in range(1, 5)`, with `fuel` the remaining iterations,
`cur` the page currently rendered, `pageNumber` the Python `page_number`
variable, `acc` the four accumulator lists, and the remaining arguments the
trace so far.  Each iteration: if the driver is unreachable on the current
page the first driver call raises; otherwise six scroll gestures are issued,
the four field lists are extracted (a failed link lookup raises, uncaught),
the batch is appended, and the pagination control for `pageNumber` is looked
up — if present it is clicked and `page_number` incremented, else the `break`
ends the loop.  Running out of fuel models the `range` ending. -/
def runLoop (sess : Session) :
    Nat → Nat → Nat → ExtractBatch → Nat → Nat →
      List Nat → List Nat → List ExtractBatch → RunResult
  | 0, _cur, _pn, acc, scr, ext, lks, cks, bts =>
    ⟨ScrapeOutcome.ok acc.titles acc.locations acc.employers acc.links,
     TerminalReason.CAP_REACHED, scr, ext, lks, cks, bts⟩
  | fuel + 1, cur, pageNumber, acc, scr, ext, lks, cks, bts =>
    if sess.unreachableAt = some cur then
      ⟨ScrapeOutcome.raised ScrapeError.sessionUnavailable,
       TerminalReason.READ_FAILURE, scr, ext, lks, cks, bts⟩
    else
      match extractPass (sess.pageAt cur) with
      | Except.error e =>
        ⟨ScrapeOutcome.raised e, TerminalReason.READ_FAILURE,
         scr + (loadMoreGestures (sess.pageAt cur)).length, ext + 1,
         lks, cks, bts⟩
      | Except.ok b =>
        if pageNumber ≤ sess.numPages then
          runLoop sess fuel pageNumber (pageNumber + 1) (appendBatch acc b)
            (scr + (loadMoreGestures (sess.pageAt cur)).length) (ext + 1)
            (lks ++ [pageNumber]) (cks ++ [pageNumber]) (bts ++ [b])
        else
          ⟨ScrapeOutcome.ok (appendBatch acc b).titles
             (appendBatch acc b).locations (appendBatch acc b).employers
             (appendBatch acc b).links,
           TerminalReason.EXHAUSTED,
           scr + (loadMoreGestures (sess.pageAt cur)).length, ext + 1,
           lks ++ [pageNumber], cks, bts ++ [b]⟩

/-- `scrape_jobs`: if the "No matching jobs found." sentinel is present the
function prints and implicitly returns `None`; otherwise the accumulators
are initialised, `page_number = 2`, and the bounded loop runs starting from
the already-rendered page 1. -/
def scrape_jobs (sess : Session) : RunResult :=
  if sess.hasNoResultsSentinel then
    ⟨ScrapeOutcome.noResults, TerminalReason.NO_RESULTS, 0, 0, [], [], []⟩
  else
    runLoop sess MAX_PAGES 1 2 emptyBatch 0 0 [] [] []

/-- A row of the exported table: the DataFrame columns
`Job Title`, `Location`, `Company`, `Link`. -/
structure ListingRecord where
  title : String
  location : String
  employer : String
  link : String
deriving DecidableEq, Repr

/-- The failure `pandas.DataFrame` raises when the dict's lists have unequal
lengths (`ValueError: All arrays must be of the same length`). -/
inductive ExportError where
  | unequalLengths
deriving DecidableEq, Repr

/-- Positional assembly of records from four equal-extent field lists. -/
def zip4 : List String → List String → List String → List String →
    List ListingRecord
  | t :: ts, l :: ls, c :: cs, k :: ks => ⟨t, l, c, k⟩ :: zip4 ts ls cs ks
  | _, _, _, _ => []

/-- `export_to_csv`: builds `pd.DataFrame({'Job Title': titles, 'Location':
locations, 'Company': companies, 'Link': links})`.  pandas constructs the
rows positionally when all four lists have the same length and raises a
`ValueError` otherwise. -/
def export_to_csv (titles locations companies links : List String) :
    Except ExportError (List ListingRecord) :=
  if titles.length = locations.length ∧ locations.length = companies.length ∧
      companies.length = links.length then
    Except.ok (zip4 titles locations companies links)
  else
    Except.error ExportError.unequalLengths

/-! ## Concrete sessions used as witnesses and counterexamples -/

/-- A benign page: one listing whose link resolves. -/
def constPage : Page :=
  ⟨["T"], fun _ => some "L", ["Loc"], ["Emp"]⟩

/-- A session whose feed offers five result pages. -/
def exSession5 : Session := ⟨false, 5, fun _ => constPage, none⟩

/-- A session showing the empty-result sentinel. -/
def exSessionEmpty : Session := ⟨true, 0, fun _ => constPage, none⟩

/-- A one-page feed: the pagination lookup for page 2 fails. -/
def exSessionOnePage : Session := ⟨false, 1, fun _ => constPage, none⟩

/-- A page of five listings on which the link lookup for title "C" raises. -/
def pageBadLink : Page :=
  ⟨["A", "B", "C", "D", "E"],
   fun t => if t = "C" then none else some ("https://x/" ++ t),
   ["l1", "l2", "l3", "l4", "l5"],
   ["e1", "e2", "e3", "e4", "e5"]⟩

/-- A session whose first page contains the failing link lookup. -/
def exSessionBadLink : Session := ⟨false, 1, fun _ => pageBadLink, none⟩

/-- A session where the driver becomes unreachable on page 2, after page 1
was extracted successfully. -/
def exSessionDies : Session := ⟨false, 9, fun _ => constPage, some 2⟩

/-! ## Step lemmas for the loop -/

theorem loadMoreGestures_length (pg : Page) : (loadMoreGestures pg).length = 6 := by
  simp [loadMoreGestures]

theorem runLoop_zero (sess : Session) (cur pn : Nat) (acc : ExtractBatch)
    (scr ext : Nat) (lks cks : List Nat) (bts : List ExtractBatch) :
    runLoop sess 0 cur pn acc scr ext lks cks bts =
      ⟨ScrapeOutcome.ok acc.titles acc.locations acc.employers acc.links,
       TerminalReason.CAP_REACHED, scr, ext, lks, cks, bts⟩ := rfl

theorem runLoop_unreachable {sess : Session} {fuel cur pn : Nat}
    {acc : ExtractBatch} {scr ext : Nat} {lks cks : List Nat}
    {bts : List ExtractBatch} (h : sess.unreachableAt = some cur) :
    runLoop sess (fuel + 1) cur pn acc scr ext lks cks bts =
      ⟨ScrapeOutcome.raised ScrapeError.sessionUnavailable,
       TerminalReason.READ_FAILURE, scr, ext, lks, cks, bts⟩ := by
  simp [runLoop, h]

theorem runLoop_extract_error {sess : Session} {fuel cur pn : Nat}
    {acc : ExtractBatch} {scr ext : Nat} {lks cks : List Nat}
    {bts : List ExtractBatch} {e : ScrapeError}
    (h1 : ¬ sess.unreachableAt = some cur)
    (h2 : extractPass (sess.pageAt cur) = Except.error e) :
    runLoop sess (fuel + 1) cur pn acc scr ext lks cks bts =
      ⟨ScrapeOutcome.raised e, TerminalReason.READ_FAILURE,
       scr + 6, ext + 1, lks, cks, bts⟩ := by
  simp [runLoop, h1, h2, loadMoreGestures]

theorem runLoop_advance {sess : Session} {fuel cur pn : Nat}
    {acc : ExtractBatch} {scr ext : Nat} {lks cks : List Nat}
    {bts : List ExtractBatch} {b : ExtractBatch}
    (h1 : ¬ sess.unreachableAt = some cur)
    (h2 : extractPass (sess.pageAt cur) = Except.ok b)
    (h3 : pn ≤ sess.numPages) :
    runLoop sess (fuel + 1) cur pn acc scr ext lks cks bts =
      runLoop sess fuel pn (pn + 1) (appendBatch acc b) (scr + 6) (ext + 1)
        (lks ++ [pn]) (cks ++ [pn]) (bts ++ [b]) := by
  simp [runLoop, h1, h2, h3, loadMoreGestures]

theorem runLoop_exhaust {sess : Session} {fuel cur pn : Nat}
    {acc : ExtractBatch} {scr ext : Nat} {lks cks : List Nat}
    {bts : List ExtractBatch} {b : ExtractBatch}
    (h1 : ¬ sess.unreachableAt = some cur)
    (h2 : extractPass (sess.pageAt cur) = Except.ok b)
    (h3 : ¬ pn ≤ sess.numPages) :
    runLoop sess (fuel + 1) cur pn acc scr ext lks cks bts =
      ⟨ScrapeOutcome.ok (appendBatch acc b).titles (appendBatch acc b).locations
         (appendBatch acc b).employers (appendBatch acc b).links,
       TerminalReason.EXHAUSTED, scr + 6, ext + 1, lks ++ [pn], cks, bts ++ [b]⟩ := by
  simp [runLoop, h1, h2, h3, loadMoreGestures]

theorem runLoop_extractPasses_le (sess : Session) :
    ∀ fuel cur pn acc scr ext lks cks bts,
      (runLoop sess fuel cur pn acc scr ext lks cks bts).extractPasses ≤ ext + fuel := by
  intro fuel
  induction fuel with
  | zero =>
    intro cur pn acc scr ext lks cks bts
    rw [runLoop_zero]
    simp
  | succ n ih =>
    intro cur pn acc scr ext lks cks bts
    by_cases h1 : sess.unreachableAt = some cur
    · rw [runLoop_unreachable h1]
      simp
    · rcases h2 : extractPass (sess.pageAt cur) with e | b
      · rw [runLoop_extract_error h1 h2]
        simp
      · by_cases h3 : pn ≤ sess.numPages
        · rw [runLoop_advance h1 h2 h3]
          have hle := ih pn (pn + 1) (appendBatch acc b) (scr + 6) (ext + 1)
            (lks ++ [pn]) (cks ++ [pn]) (bts ++ [b])
          omega
        · rw [runLoop_exhaust h1 h2 h3]
          simp

/-! ## Claim theorems -/

/-- C1: in every session where the empty-result sentinel is found, the
scraper produces no records (`noResults` outcome, no batches), terminates
with reason `NO_RESULTS`, and performs zero scroll gestures and zero
extraction passes. -/
theorem noResults_sentinel_empty_run (sess : Session)
    (h : sess.hasNoResultsSentinel = true) :
    scrape_jobs sess =
      ⟨ScrapeOutcome.noResults, TerminalReason.NO_RESULTS, 0, 0, [], [], []⟩ := by
  simp [scrape_jobs, h]

theorem noResults_sentinel_empty_run_witness :
    scrape_jobs exSessionEmpty =
      ⟨ScrapeOutcome.noResults, TerminalReason.NO_RESULTS, 0, 0, [], [], []⟩ :=
  noResults_sentinel_empty_run exSessionEmpty rfl

/-- C2: for every session, the number of scroll-and-extract iterations
performed never exceeds `MAX_PAGES = 4`; the loop is bounded regardless of
how many pages the feed offers. -/
theorem extractPasses_le_MAX_PAGES (sess : Session) :
    (scrape_jobs sess).extractPasses ≤ MAX_PAGES := by
  unfold scrape_jobs
  by_cases h : sess.hasNoResultsSentinel = true
  · simp [h, MAX_PAGES]
  · rw [if_neg h]
    have hle := runLoop_extractPasses_le sess MAX_PAGES 1 2 emptyBatch 0 0 [] [] []
    omega

/-- C9: the Scroll Loader's gesture sequence does not depend on the page
content at all, so two invocations in direct succession with no intervening
state change issue the same gestures, and each invocation issues exactly 6
scroll gestures. -/
theorem scroll_loader_deterministic (pg pg' : Page) :
    loadMoreGestures pg = loadMoreGestures pg' ∧
      (loadMoreGestures pg).length = 6 := by
  exact ⟨rfl, loadMoreGestures_length pg⟩

/-- C10: when the no-results sentinel is present `scrape_jobs` yields the
`noResults` outcome (modelling Python's `return None`, a single value, not a
four-tuple); its result is a well-formed four-tuple only when the sentinel
is absent. -/
theorem scrape_jobs_none_iff_sentinel (sess : Session) :
    (sess.hasNoResultsSentinel = true →
      (scrape_jobs sess).outcome = ScrapeOutcome.noResults) ∧
    (∀ t l c k, (scrape_jobs sess).outcome = ScrapeOutcome.ok t l c k →
      sess.hasNoResultsSentinel = false) := by
  constructor
  · intro h
    simp [scrape_jobs, h]
  · intro t l c k h
    by_cases hs : sess.hasNoResultsSentinel = true
    · simp [scrape_jobs, hs] at h
    · simpa using hs

theorem scrape_jobs_none_iff_sentinel_witness :
    (scrape_jobs exSessionEmpty).outcome = ScrapeOutcome.noResults :=
  (scrape_jobs_none_iff_sentinel exSessionEmpty).1 rfl

/-- C3 counterexample: in a session whose feed offers 5 result pages,
exactly 4 extraction passes occur and the run ends with `CAP_REACHED`, yet
the pagination control for the 5th page IS looked up and activated on the
final iteration — the source attempts pagination before the iteration cap
ends the loop, contrary to the claim that no 5th-page lookup or activation
ever happens. -/
theorem cap_reached_fifth_page_clicked :
    (scrape_jobs exSession5).extractPasses = 4 ∧
    (scrape_jobs exSession5).reason = TerminalReason.CAP_REACHED ∧
    5 ∈ (scrape_jobs exSession5).lookups ∧
    5 ∈ (scrape_jobs exSession5).clicks := by
  decide

/-- C3 (amended): for every session whose feed offers at least 5 result
pages (with the first four pages reachable and extractable), exactly 4
extraction passes occur and the terminal reason is `CAP_REACHED`; however
the loop's final iteration still looks up and activates the pagination
control for page 5 before the iteration cap stops the loop — the lookup and
click sequences are `[2, 3, 4, 5]`, each. -/
theorem cap_reached_after_four_passes (sess : Session)
    (hs : sess.hasNoResultsSentinel = false)
    (hN : 5 ≤ sess.numPages)
    (hr : ∀ p, 1 ≤ p → p ≤ 4 → ¬ sess.unreachableAt = some p)
    (hx : ∀ p, 1 ≤ p → p ≤ 4 → ∃ b, extractPass (sess.pageAt p) = Except.ok b) :
    (scrape_jobs sess).extractPasses = 4 ∧
    (scrape_jobs sess).reason = TerminalReason.CAP_REACHED ∧
    (scrape_jobs sess).lookups = [2, 3, 4, 5] ∧
    (scrape_jobs sess).clicks = [2, 3, 4, 5] := by
  obtain ⟨b1, hx1⟩ := hx 1 (by omega) (by omega)
  obtain ⟨b2, hx2⟩ := hx 2 (by omega) (by omega)
  obtain ⟨b3, hx3⟩ := hx 3 (by omega) (by omega)
  obtain ⟨b4, hx4⟩ := hx 4 (by omega) (by omega)
  have e0 : scrape_jobs sess = runLoop sess 4 1 2 emptyBatch 0 0 [] [] [] := by
    unfold scrape_jobs MAX_PAGES
    rw [hs]
    simp
  have e1 : runLoop sess 4 1 2 emptyBatch 0 0 [] [] [] =
      runLoop sess 3 2 3 (appendBatch emptyBatch b1) 6 1 [2] [2] [b1] :=
    runLoop_advance (hr 1 (by omega) (by omega)) hx1 (by omega)
  have e2 : runLoop sess 3 2 3 (appendBatch emptyBatch b1) 6 1 [2] [2] [b1] =
      runLoop sess 2 3 4 (appendBatch (appendBatch emptyBatch b1) b2) 12 2
        [2, 3] [2, 3] [b1, b2] :=
    runLoop_advance (hr 2 (by omega) (by omega)) hx2 (by omega)
  have e3 : runLoop sess 2 3 4 (appendBatch (appendBatch emptyBatch b1) b2) 12 2
        [2, 3] [2, 3] [b1, b2] =
      runLoop sess 1 4 5
        (appendBatch (appendBatch (appendBatch emptyBatch b1) b2) b3) 18 3
        [2, 3, 4] [2, 3, 4] [b1, b2, b3] :=
    runLoop_advance (hr 3 (by omega) (by omega)) hx3 (by omega)
  have e4 : runLoop sess 1 4 5
        (appendBatch (appendBatch (appendBatch emptyBatch b1) b2) b3) 18 3
        [2, 3, 4] [2, 3, 4] [b1, b2, b3] =
      runLoop sess 0 5 6
        (appendBatch (appendBatch (appendBatch (appendBatch emptyBatch b1) b2) b3) b4)
        24 4 [2, 3, 4, 5] [2, 3, 4, 5] [b1, b2, b3, b4] :=
    runLoop_advance (hr 4 (by omega) (by omega)) hx4 (by omega)
  rw [e0, e1, e2, e3, e4, runLoop_zero]
  exact ⟨rfl, rfl, rfl, rfl⟩

theorem cap_reached_after_four_passes_witness :
    (scrape_jobs exSession5).reason = TerminalReason.CAP_REACHED :=
  (cap_reached_after_four_passes exSession5 rfl (by decide)
    (fun p _ _ => by simp [exSession5])
    (fun p _ _ => ⟨⟨["T"], ["L"], ["Loc"], ["Emp"]⟩, rfl⟩)).2.1

/-! ## Link-lookup failure lemmas -/

theorem seqOpt_eq_none : ∀ {l : List (Option String)}, none ∈ l → seqOpt l = none := by
  intro l h
  induction l with
  | nil => simp at h
  | cons o rest ih =>
    rcases o with _ | x
    · rfl
    · have h' : none ∈ rest := by
        rcases List.mem_cons.mp h with h | h
        · exact absurd h (by simp)
        · exact h
      simp [seqOpt, ih h']

theorem extractPass_error_of_link_failure {pg : Page} {t : String}
    (ht : t ∈ pg.titles) (hn : pg.linkFor t = none) :
    extractPass pg = Except.error ScrapeError.linkLookupFailed := by
  have hm : none ∈ pg.titles.map pg.linkFor := by
    rw [← hn]
    exact List.mem_map_of_mem pg.linkFor ht
  simp [extractPass, seqOpt_eq_none hm]

/-- C4 counterexample: on a page of five titles where the link lookup fails
for title "C", the extraction pass raises the uncaught exception — no record
with an empty link field is emitted, contrary to the claim that the record
is still emitted and no failure is raised. -/
theorem link_failure_raises_cx :
    (scrape_jobs exSessionBadLink).outcome
        = ScrapeOutcome.raised ScrapeError.linkLookupFailed ∧
    (scrape_jobs exSessionBadLink).batches = [] := by
  decide

/-- C4 (amended): when the link lookup fails for any title on the first
page, the `NoSuchElementException` propagates uncaught out of the scrape
(the per-title lookup sits inside the outer `except` block, with no handler
of its own): the run ends as a raised failure and no batch — in particular
no record with an empty link field — is produced. -/
theorem link_failure_raises (sess : Session)
    (hs : sess.hasNoResultsSentinel = false)
    (hr : ¬ sess.unreachableAt = some 1)
    (ht : ∃ t, t ∈ (sess.pageAt 1).titles ∧ (sess.pageAt 1).linkFor t = none) :
    (scrape_jobs sess).outcome = ScrapeOutcome.raised ScrapeError.linkLookupFailed ∧
    (scrape_jobs sess).batches = [] := by
  obtain ⟨t, ht1, ht2⟩ := ht
  have hE := extractPass_error_of_link_failure ht1 ht2
  have e0 : scrape_jobs sess = runLoop sess 4 1 2 emptyBatch 0 0 [] [] [] := by
    unfold scrape_jobs MAX_PAGES
    rw [hs]
    simp
  rw [e0, runLoop_extract_error hr hE]
  exact ⟨rfl, rfl⟩

theorem link_failure_raises_witness :
    (scrape_jobs exSessionBadLink).outcome
        = ScrapeOutcome.raised ScrapeError.linkLookupFailed :=
  (link_failure_raises exSessionBadLink rfl (by decide)
    ⟨"C", by decide, by decide⟩).1

/-- C5 counterexample: the driver dies on page 2 after page 1 yielded one
record; the run ends as an uncaught `sessionUnavailable` exception whose
outcome carries no record lists, even though one batch had been extracted —
the partial results are lost to the crash, contrary to the claim that they
are preserved and surfaced. -/
theorem session_failure_loses_records_cx :
    (scrape_jobs exSessionDies).outcome
        = ScrapeOutcome.raised ScrapeError.sessionUnavailable ∧
    (scrape_jobs exSessionDies).batches =
      [⟨["T"], ["L"], ["Loc"], ["Emp"]⟩] := by
  decide

/-- C5 (amended): if the Render Surface becomes unreachable while the second
page is processed, the loop does abort immediately without retry (exactly
the one earlier extraction pass happened, and one batch was extracted), but
the run ends as an uncaught `sessionUnavailable` exception rather than a
state carrying the aggregated records: the records extracted before the
failure are lost with the crash, not preserved or surfaced. -/
theorem session_failure_aborts (sess : Session)
    (hs : sess.hasNoResultsSentinel = false)
    (h1 : ¬ sess.unreachableAt = some 1)
    (hx : ∃ b, extractPass (sess.pageAt 1) = Except.ok b)
    (hp : 2 ≤ sess.numPages)
    (h2 : sess.unreachableAt = some 2) :
    (scrape_jobs sess).outcome = ScrapeOutcome.raised ScrapeError.sessionUnavailable ∧
    (scrape_jobs sess).reason = TerminalReason.READ_FAILURE ∧
    (scrape_jobs sess).extractPasses = 1 ∧
    (scrape_jobs sess).batches.length = 1 := by
  obtain ⟨b, hb⟩ := hx
  have e0 : scrape_jobs sess = runLoop sess 4 1 2 emptyBatch 0 0 [] [] [] := by
    unfold scrape_jobs MAX_PAGES
    rw [hs]
    simp
  have e1 : runLoop sess 4 1 2 emptyBatch 0 0 [] [] [] =
      runLoop sess 3 2 3 (appendBatch emptyBatch b) 6 1 [2] [2] [b] :=
    runLoop_advance h1 hb hp
  rw [e0, e1, runLoop_unreachable h2]
  exact ⟨rfl, rfl, rfl, rfl⟩

theorem session_failure_aborts_witness :
    (scrape_jobs exSessionDies).outcome
        = ScrapeOutcome.raised ScrapeError.sessionUnavailable :=
  (session_failure_aborts exSessionDies rfl (by decide)
    ⟨⟨["T"], ["L"], ["Loc"], ["Emp"]⟩, rfl⟩ (by decide) rfl).1

/-- C6 counterexample: titles of length 2 against three singleton lists —
the persistence step fails with the unequal-lengths error instead of forming
one record positionally up to the shortest list, contrary to the claim. -/
theorem export_mismatch_fails_cx :
    export_to_csv ["t1", "t2"] ["loc1"] ["c1"] ["l1"]
      = Except.error ExportError.unequalLengths := rfl

/-- C6 (amended): records are formed positionally only when the four field
lists have equal lengths; when the lengths are mismatched the
aggregation/persistence step fails (pandas raises `ValueError`) rather than
forming records up to the shortest list's extent. -/
theorem export_to_csv_length_spec (t l c k : List String) :
    (¬ (t.length = l.length ∧ l.length = c.length ∧ c.length = k.length) →
      export_to_csv t l c k = Except.error ExportError.unequalLengths) ∧
    ((t.length = l.length ∧ l.length = c.length ∧ c.length = k.length) →
      export_to_csv t l c k = Except.ok (zip4 t l c k)) := by
  constructor
  · intro h
    unfold export_to_csv
    rw [if_neg h]
  · intro h
    unfold export_to_csv
    rw [if_pos h]

theorem export_to_csv_length_spec_witness :
    export_to_csv ["t1", "t2"] ["loc1"] ["c1"] ["l1"]
        = Except.error ExportError.unequalLengths ∧
    export_to_csv ["t"] ["loc"] ["c"] ["l"]
        = Except.ok (zip4 ["t"] ["loc"] ["c"] ["l"]) :=
  ⟨(export_to_csv_length_spec ["t1", "t2"] ["loc1"] ["c1"] ["l1"]).1 (by decide),
   (export_to_csv_length_spec ["t"] ["loc"] ["c"] ["l"]).2 (by decide)⟩

/-! ## The shape of an EXHAUSTED run -/

/-- Trace shape of every run that ends because a pagination lookup failed:
the looked-up page indices are the consecutive run `[2, …, extractPasses+1]`
(one lookup per iteration, the index incremented once per successful click),
the clicked indices are all of them except the final failed one, and at
least one iteration ran. -/
def exhaustedShape (r : RunResult) : Prop :=
  r.lookups = List.range' 2 r.extractPasses ∧
  r.clicks = List.range' 2 (r.extractPasses - 1) ∧
  1 ≤ r.extractPasses

theorem range'_concat_two (n : Nat) :
    List.range' 2 n ++ [n + 2] = List.range' 2 (n + 1) := by
  have h := List.range'_1_concat 2 n
  rw [h, Nat.add_comm 2 n]

theorem runLoop_exhausted_inv (sess : Session) :
    ∀ fuel cur acc scr bts n,
      (runLoop sess fuel cur (n + 2) acc scr n
          (List.range' 2 n) (List.range' 2 n) bts).reason
        = TerminalReason.EXHAUSTED →
      exhaustedShape (runLoop sess fuel cur (n + 2) acc scr n
        (List.range' 2 n) (List.range' 2 n) bts) := by
  intro fuel
  induction fuel with
  | zero =>
    intro cur acc scr bts n h
    rw [runLoop_zero] at h
    simp at h
  | succ m ih =>
    intro cur acc scr bts n h
    by_cases h1 : sess.unreachableAt = some cur
    · rw [runLoop_unreachable h1] at h
      simp at h
    · rcases h2 : extractPass (sess.pageAt cur) with e | b
      · rw [runLoop_extract_error h1 h2] at h
        simp at h
      · by_cases h3 : (n + 2) ≤ sess.numPages
        · rw [runLoop_advance h1 h2 h3, range'_concat_two] at h ⊢
          exact ih (n + 2) (appendBatch acc b) (scr + 6) (bts ++ [b]) (n + 1) h
        · rw [runLoop_exhaust h1 h2 h3]
          unfold exhaustedShape
          refine ⟨?_, ?_, ?_⟩
          · exact range'_concat_two n
          · simp
          · simp

/-- C7: whenever a run terminates because the pagination lookup found no
control for the expected index (EXHAUSTED), the looked-up indices are
exactly `[2, …, extractPasses+1]` and the clicked indices are all but the
last of them: the final failed lookup caused no activation and no further
iteration (no extraction pass followed it — one lookup per pass), and the
expected page index was incremented only after each successful activation
(the consecutive run of clicked indices). -/
theorem exhausted_stops_loop (sess : Session)
    (h : (scrape_jobs sess).reason = TerminalReason.EXHAUSTED) :
    (scrape_jobs sess).lookups
        = List.range' 2 (scrape_jobs sess).extractPasses ∧
    (scrape_jobs sess).clicks
        = List.range' 2 ((scrape_jobs sess).extractPasses - 1) ∧
    1 ≤ (scrape_jobs sess).extractPasses := by
  by_cases hs : sess.hasNoResultsSentinel = true
  · rw [scrape_jobs, if_pos hs] at h
    simp at h
  · have e0 : scrape_jobs sess = runLoop sess 4 1 2 emptyBatch 0 0 [] [] [] := by
      unfold scrape_jobs MAX_PAGES
      rw [if_neg hs]
    rw [e0] at h ⊢
    exact runLoop_exhausted_inv sess 4 1 emptyBatch 0 [] 0 h

theorem exhausted_stops_loop_witness :
    (scrape_jobs exSessionOnePage).lookups
        = List.range' 2 (scrape_jobs exSessionOnePage).extractPasses ∧
    (scrape_jobs exSessionOnePage).clicks
        = List.range' 2 ((scrape_jobs exSessionOnePage).extractPasses - 1) ∧
    1 ≤ (scrape_jobs exSessionOnePage).extractPasses :=
  exhausted_stops_loop exSessionOnePage (by decide)

/-! ## Ordering of the aggregated output -/

theorem runLoop_ok_flatten (sess : Session) :
    ∀ fuel cur pn acc scr ext lks cks bts,
      acc.titles = (bts.map ExtractBatch.titles).flatten →
      acc.locations = (bts.map ExtractBatch.locations).flatten →
      acc.employers = (bts.map ExtractBatch.employers).flatten →
      acc.links = (bts.map ExtractBatch.links).flatten →
      ∀ t l c k,
        (runLoop sess fuel cur pn acc scr ext lks cks bts).outcome
            = ScrapeOutcome.ok t l c k →
        t = ((runLoop sess fuel cur pn acc scr ext lks cks bts).batches.map
              ExtractBatch.titles).flatten ∧
        l = ((runLoop sess fuel cur pn acc scr ext lks cks bts).batches.map
              ExtractBatch.locations).flatten ∧
        c = ((runLoop sess fuel cur pn acc scr ext lks cks bts).batches.map
              ExtractBatch.employers).flatten ∧
        k = ((runLoop sess fuel cur pn acc scr ext lks cks bts).batches.map
              ExtractBatch.links).flatten := by
  intro fuel
  induction fuel with
  | zero =>
    intro cur pn acc scr ext lks cks bts hT hL hE hK t l c k h
    rw [runLoop_zero] at h ⊢
    simp only [ScrapeOutcome.ok.injEq] at h
    obtain ⟨h1, h2, h3, h4⟩ := h
    exact ⟨h1 ▸ hT, h2 ▸ hL, h3 ▸ hE, h4 ▸ hK⟩
  | succ m ih =>
    intro cur pn acc scr ext lks cks bts hT hL hE hK t l c k h
    by_cases h1 : sess.unreachableAt = some cur
    · rw [runLoop_unreachable h1] at h
      simp at h
    · rcases h2 : extractPass (sess.pageAt cur) with e | b
      · rw [runLoop_extract_error h1 h2] at h
        simp at h
      · by_cases h3 : pn ≤ sess.numPages
        · rw [runLoop_advance h1 h2 h3] at h ⊢
          refine ih pn (pn + 1) (appendBatch acc b) (scr + 6) (ext + 1)
            (lks ++ [pn]) (cks ++ [pn]) (bts ++ [b]) ?_ ?_ ?_ ?_ t l c k h
          · simp [appendBatch, hT]
          · simp [appendBatch, hL]
          · simp [appendBatch, hE]
          · simp [appendBatch, hK]
        · rw [runLoop_exhaust h1 h2 h3] at h ⊢
          simp only [ScrapeOutcome.ok.injEq] at h
          obtain ⟨h4, h5, h6, h7⟩ := h
          refine ⟨?_, ?_, ?_, ?_⟩
          · rw [← h4]
            simp [appendBatch, hT]
          · rw [← h5]
            simp [appendBatch, hL]
          · rw [← h6]
            simp [appendBatch, hE]
          · rw [← h7]
            simp [appendBatch, hK]

/-- C8: whenever the scrape returns its four lists, each returned list is
the concatenation, in page-visit order, of the corresponding per-page
extracted lists: all entries extracted from page N precede all entries from
page N+1, and within one page the entries appear in the order the page's
nodes were enumerated (title-list order, as each batch stores them). -/
theorem output_in_page_order (sess : Session) (t l c k : List String)
    (h : (scrape_jobs sess).outcome = ScrapeOutcome.ok t l c k) :
    t = ((scrape_jobs sess).batches.map ExtractBatch.titles).flatten ∧
    l = ((scrape_jobs sess).batches.map ExtractBatch.locations).flatten ∧
    c = ((scrape_jobs sess).batches.map ExtractBatch.employers).flatten ∧
    k = ((scrape_jobs sess).batches.map ExtractBatch.links).flatten := by
  by_cases hs : sess.hasNoResultsSentinel = true
  · rw [scrape_jobs, if_pos hs] at h
    simp at h
  · have e0 : scrape_jobs sess = runLoop sess 4 1 2 emptyBatch 0 0 [] [] [] := by
      unfold scrape_jobs MAX_PAGES
      rw [if_neg hs]
    rw [e0] at h ⊢
    exact runLoop_ok_flatten sess 4 1 2 emptyBatch 0 0 [] [] []
      rfl rfl rfl rfl t l c k h

theorem output_in_page_order_witness :
    ["T", "T", "T", "T"]
        = ((scrape_jobs exSession5).batches.map ExtractBatch.titles).flatten ∧
    ["Loc", "Loc", "Loc", "Loc"]
        = ((scrape_jobs exSession5).batches.map ExtractBatch.locations).flatten ∧
    ["Emp", "Emp", "Emp", "Emp"]
        = ((scrape_jobs exSession5).batches.map ExtractBatch.employers).flatten ∧
    ["L", "L", "L", "L"]
        = ((scrape_jobs exSession5).batches.map ExtractBatch.links).flatten :=
  output_in_page_order exSession5 ["T", "T", "T", "T"] ["Loc", "Loc", "Loc", "Loc"]
    ["Emp", "Emp", "Emp", "Emp"] ["L", "L", "L", "L"] (by decide)

end LinkedInScraper
